import Mathlib

/-!
# CropDiseaseDetector: the image-acquisition and submission state machine

A shallow embedding of the event handlers of
`src/components/PlantDiseaseDetector.jsx`: the six `useState` cells and the
three `useRef` cells of the component form one record, every handler is a
function on that record, and whatever the browser or the remote service
supplies (the decoded file, the outcome of `axios.post`, the outcome of
`getUserMedia`, the canvas encodings) is an explicit argument.
-/

namespace PlantDisease

/-! ## JavaScript values -/

/-- The JavaScript values that can reach the component from outside: parsed
JSON bodies, the objects axios resolves or rejects with, and what ends up in
the `error` cell. A finite number carries its exact rational value. -/
inductive JSValue where
  | undefined
  | null
  | bool (b : Bool)
  | number (q : ℚ)
  | nan
  | infinity (negative : Bool)
  | str (s : String)
  | arr (items : List JSValue)
  | obj (fields : List (String × JSValue))

namespace JSValue

/-- ToBoolean: what `||`, `!` and `if` test. -/
def truthy : JSValue → Bool
  | undefined => false
  | null => false
  | bool b => b
  | number q => decide (q ≠ 0)
  | nan => false
  | infinity _ => true
  | str s => decide (s ≠ "")
  | arr _ => true
  | obj _ => true

/-- The values on which `.` throws and `?.` short-circuits. -/
def isNullish : JSValue → Bool
  | undefined => true
  | null => true
  | _ => false

/-- Reading the own property `key` of a value that is not nullish, for the
property names the component reads (`response`, `data`, `error`, `class`,
`confidence`): an object yields the field or `undefined`, every other value
has no such property. -/
def field (v : JSValue) (key : String) : JSValue :=
  match v with
  | obj fields => (fields.lookup key).getD undefined
  | _ => undefined

/-- The `TypeError` raised by a property read on `null` or `undefined`. -/
def typeError : JSValue :=
  obj [("name", str "TypeError")]

/-- The member access `v.key`: throws on a nullish base. -/
def getProp (v : JSValue) (key : String) : Except JSValue JSValue :=
  if v.isNullish then .error typeError else .ok (v.field key)

/-- The optional member access `v?.key`: `undefined` on a nullish base. -/
def optProp (v : JSValue) (key : String) : JSValue :=
  if v.isNullish then undefined else v.field key

/-- The operator `a || b`. -/
def or (a b : JSValue) : JSValue :=
  if a.truthy then a else b

end JSValue

/-! ## Browser objects -/

/-- A `Blob`: raw bytes and a MIME type. -/
structure Blob where
  bytes : List Nat
  type : String
  deriving DecidableEq, Repr

/-- A `File`: a blob with a name. -/
structure File where
  bytes : List Nat
  name : String
  type : String
  deriving DecidableEq, Repr

/-- The bytes one element of the parts array of `new File([...])` contributes:
a blob gives its bytes, `null` is converted to the text "null". -/
def blobPartBytes : Option Blob → List Nat
  | some b => b.bytes
  | none => [110, 117, 108, 108]

/-- The constructor `new File(parts, name, { type })`. -/
def File.ofParts (parts : List (Option Blob)) (name type : String) : File :=
  { bytes := parts.flatMap blobPartBytes, name := name, type := type }

/-- The `readyState` of a `MediaStreamTrack`. -/
inductive ReadyState where
  | live
  | ended
  deriving DecidableEq, Repr

/-- A `MediaStreamTrack`. -/
structure MediaStreamTrack where
  id : String
  readyState : ReadyState
  deriving DecidableEq, Repr

/-- The method `track.stop()`. -/
def MediaStreamTrack.stop (t : MediaStreamTrack) : MediaStreamTrack :=
  { t with readyState := .ended }

/-- A `MediaStream`; `tracks` is what `getTracks()` returns. -/
structure MediaStream where
  tracks : List MediaStreamTrack
  deriving DecidableEq, Repr

/-- The number of tracks of a stream that are still live. -/
def MediaStream.liveCount (s : MediaStream) : Nat :=
  (s.tracks.filter (fun t => decide (t.readyState = .live))).length

/-- The `<video>` element behind `videoRef`. -/
structure HTMLVideo where
  srcObject : Option MediaStream
  videoWidth : Nat
  videoHeight : Nat
  deriving DecidableEq, Repr

/-- The `<canvas>` element behind `canvasRef`. -/
structure HTMLCanvas where
  width : Nat
  height : Nat
  deriving DecidableEq, Repr

/-- The `<input type="file">` element behind `fileInputRef`. -/
structure HTMLInput where
  value : String
  deriving DecidableEq, Repr

/-! ## The network interface -/

/-- A `FormData`: its entries in insertion order. -/
abbrev FormData := List (String × File)

/-- The method `formData.append(name, file)`. -/
def FormData.append (fd : FormData) (name : String) (file : File) : FormData :=
  fd ++ [(name, file)]

/-- An HTTP request as handed to axios. -/
structure Request where
  method : String
  url : String
  data : FormData
  headers : List (String × String)
  deriving DecidableEq, Repr

/-- The call `axios.post(url, data, { headers })`. -/
def axiosPost (url : String) (data : FormData) (headers : List (String × String)) : Request :=
  { method := "POST", url := url, data := data, headers := headers }

/-- How an awaited promise settles: with a value, or with a rejection reason. -/
inductive Settled where
  | resolved (value : JSValue)
  | rejected (reason : JSValue)

/-! ## The component -/

/-- The object stored by `setPrediction`. -/
structure Prediction where
  class_ : JSValue
  confidence : JSValue

/-- The state cells and the ref cells of `CropDiseaseDetector`. -/
structure CropDiseaseDetector where
  selectedFile : Option File
  imagePreview : Option String
  prediction : Option Prediction
  error : JSValue
  isLoading : Bool
  isCameraMode : Bool
  fileInputRef : Option HTMLInput
  videoRef : Option HTMLVideo
  canvasRef : Option HTMLCanvas

/-- The component as first rendered: every `useState` and `useRef` initial
value, with the file input mounted by the first commit. -/
def CropDiseaseDetector.initial : CropDiseaseDetector :=
  { selectedFile := none, imagePreview := none, prediction := none, error := .null,
    isLoading := false, isCameraMode := false,
    fileInputRef := some { value := "" }, videoRef := none, canvasRef := none }

/-! ### handleFileChange -/

/-- The `onloadend` callback of `handleFileChange`, run on the component as it
is when the read ends; `result` is `reader.result`. -/
def handleFileChangeLoadEnd (c : CropDiseaseDetector) (file : File) (result : Option String) :
    CropDiseaseDetector :=
  { c with imagePreview := result, selectedFile := some file, prediction := none, error := .null }

/-- The handler `handleFileChange` followed by its `onloadend` callback;
`files` is `event.target.files`. With no first file nothing happens. -/
def handleFileChange (c : CropDiseaseDetector) (files : List File) (result : Option String) :
    CropDiseaseDetector :=
  match files.head? with
  | some file => handleFileChangeLoadEnd c file result
  | none => c

/-! ### handleSubmit -/

/-- What one run of `handleSubmit` leaves behind. -/
structure SubmitRun where
  component : CropDiseaseDetector
  requests : List Request
  defaultPrevented : Bool
  uncaught : Option JSValue

/-- The request `handleSubmit` sends for a file. -/
def predictRequest (file : File) : Request :=
  axiosPost "https://plantdiseaseapi.vercel.app/predict"
    (FormData.append [] "file" file)
    [("Content-Type", "multipart/form-data")]

/-- The part of `handleSubmit` before the `await`: the validation, and for a
selected file the request together with the in-flight state. -/
def handleSubmitBegin (c : CropDiseaseDetector) : CropDiseaseDetector × Option Request :=
  match c.selectedFile with
  | none => ({ c with error := .str "Please select an image" }, none)
  | some file => ({ c with isLoading := true, error := .null }, some (predictRequest file))

/-- The body of the `try` block after the `await`: the object passed to
`setPrediction`, or what is thrown. -/
def readPrediction (settled : Settled) : Except JSValue Prediction :=
  match settled with
  | .rejected reason => .error reason
  | .resolved response =>
    match response.getProp "data" with
    | .error e => .error e
    | .ok data =>
      match data.getProp "class" with
      | .error e => .error e
      | .ok cls =>
        match data.getProp "confidence" with
        | .error e => .error e
        | .ok confidence => .ok { class_ := cls, confidence := confidence }

/-- The `catch` block: the value passed to `setError`, or what the block
itself throws. -/
def catchMessage (err : JSValue) : Except JSValue JSValue :=
  match err.getProp "response" with
  | .error e => .error e
  | .ok response =>
    .ok (JSValue.or ((response.optProp "data").optProp "error") (.str "An error occurred"))

/-- The part of `handleSubmit` after the `await`, run on the component as it is
when the promise settles: `try`, `catch`, `finally`. -/
def handleSubmitSettle (c : CropDiseaseDetector) (settled : Settled) :
    CropDiseaseDetector × Option JSValue :=
  match readPrediction settled with
  | .ok p => ({ c with prediction := some p, isLoading := false }, none)
  | .error err =>
    match catchMessage err with
    | .ok msg => ({ c with error := msg, isLoading := false }, none)
    | .error e => ({ c with isLoading := false }, some e)

/-- The handler `handleSubmit`, run to its end with no other event in between;
`remote` is the service answering the request. -/
def handleSubmit (c : CropDiseaseDetector) (remote : Request → Settled) : SubmitRun :=
  match handleSubmitBegin c with
  | (c1, none) =>
    { component := c1, requests := [], defaultPrevented := true, uncaught := none }
  | (c1, some req) =>
    let r := handleSubmitSettle c1 (remote req)
    { component := r.1, requests := [req], defaultPrevented := true, uncaught := r.2 }

/-! ### startCamera -/

/-- The handler `startCamera`; `media` is how `getUserMedia({ video: true })`
ends, a stream or the thrown error. -/
def startCamera (c : CropDiseaseDetector) (media : Except JSValue MediaStream) :
    CropDiseaseDetector :=
  let c1 := { c with isCameraMode := true }
  match media with
  | .ok stream =>
    match c1.videoRef with
    | some video => { c1 with videoRef := some { video with srcObject := some stream } }
    | none => c1
  | .error _ => { c1 with error := .str "Camera access denied" }

/-! ### captureImage -/

/-- What one run of `captureImage` leaves behind. -/
structure CaptureRun where
  component : CropDiseaseDetector
  uncaught : Option JSValue

/-- The lines "Stop video stream": every track returned by `getTracks()` is
stopped. -/
def MediaStream.stopAll (s : MediaStream) : MediaStream :=
  { s with tracks := s.tracks.map MediaStreamTrack.stop }

/-- The handler `captureImage` followed by its `toBlob` callback; `blob` is
what `toBlob` hands to the callback and `dataURL` what `toDataURL()` returns. -/
def captureImage (c : CropDiseaseDetector) (blob : Option Blob) (dataURL : String) :
    CaptureRun :=
  match c.canvasRef, c.videoRef with
  | some canvas, some video =>
    let canvas1 : HTMLCanvas := { canvas with width := video.videoWidth, height := video.videoHeight }
    let file := File.ofParts [blob] "captured-image.jpg" "image/jpeg"
    let c1 := { c with canvasRef := some canvas1, selectedFile := some file,
                       imagePreview := some dataURL, isCameraMode := false }
    match video.srcObject with
    | some stream =>
      { component := { c1 with videoRef := some { video with srcObject := some stream.stopAll } },
        uncaught := none }
    | none => { component := c1, uncaught := some JSValue.typeError }
  | _, _ => { component := c, uncaught := none }

/-! ### clearFile -/

/-- The handler `clearFile`. -/
def clearFile (c : CropDiseaseDetector) : CropDiseaseDetector :=
  { c with selectedFile := none, imagePreview := none,
           fileInputRef := c.fileInputRef.map (fun input => { input with value := "" }) }

/-! ## Sample inputs -/

/-- A small JPEG file as picked in the file dialog. -/
def sampleFile : File :=
  { bytes := [255, 216, 255, 224], name := "leaf.jpg", type := "image/jpeg" }

/-- The component after `sampleFile` was picked and decoded. -/
def acquired : CropDiseaseDetector :=
  handleFileChange CropDiseaseDetector.initial [sampleFile] (some "data:image/jpeg;base64,/9j/4A==")

/-- A service answering every request with `class` "Leaf Blight" and
`confidence` 92. -/
def leafBlightRemote : Request → Settled :=
  fun _ => .resolved (.obj [("data",
    .obj [("class", .str "Leaf Blight"), ("confidence", .number 92)]), ("status", .number 200)])

/-- A service answering every request with a fault whose body carries the
given `error` value. -/
def faultRemote (e : JSValue) : Request → Settled :=
  fun _ => .rejected (.obj [("message", .str "Request failed with status code 400"),
    ("response", .obj [("data", .obj [("error", e)]), ("status", .number 400)])])

/-- A transport failure: the request never gets a response. -/
def networkErrorRemote : Request → Settled :=
  fun _ => .rejected (.obj [("message", .str "Network Error"), ("code", .str "ERR_NETWORK")])

/-- The component after a successful submission of `sampleFile`. -/
def succeeded : CropDiseaseDetector :=
  (handleSubmit acquired leafBlightRemote).component

/-- The component after a second submission of the same file that met a
transport failure: the Failed phase, still showing the earlier prediction. -/
def failedAfterSuccess : CropDiseaseDetector :=
  (handleSubmit succeeded networkErrorRemote).component

/-- The component after a first submission of `sampleFile` that met a
transport failure. -/
def failedFirst : CropDiseaseDetector :=
  (handleSubmit acquired networkErrorRemote).component

/-- A camera stream with one live video track and one track already ended. -/
def sampleStream : MediaStream :=
  { tracks := [{ id := "video-0", readyState := .live }, { id := "video-1", readyState := .ended }] }

/-- The component of `failedAfterSuccess` in camera mode, video and canvas
mounted, the camera stream attached by `startCamera`. -/
def cameraAfterFailure : CropDiseaseDetector :=
  startCamera
    { failedAfterSuccess with
      fileInputRef := none,
      videoRef := some { srcObject := none, videoWidth := 640, videoHeight := 480 },
      canvasRef := some { width := 300, height := 150 } }
    (.ok sampleStream)

/-- The submission-relevant cells of the Idle phase holding the same image:
no prediction, no fault, nothing in flight. -/
def CropDiseaseDetector.toIdle (c : CropDiseaseDetector) : CropDiseaseDetector :=
  { c with prediction := none, error := .null, isLoading := false }

end PlantDisease

namespace PlantDisease

/-! ## Helper lemmas -/

theorem handleSubmit_of_file (c : CropDiseaseDetector) (f : File) (remote : Request → Settled)
    (hfile : c.selectedFile = some f) :
    handleSubmit c remote =
      { component := (handleSubmitSettle { c with isLoading := true, error := .null }
          (remote (predictRequest f))).1,
        requests := [predictRequest f],
        defaultPrevented := true,
        uncaught := (handleSubmitSettle { c with isLoading := true, error := .null }
          (remote (predictRequest f))).2 } := by
  simp [handleSubmit, handleSubmitBegin, hfile]

theorem JSValue.truthy_or_fallback (a : JSValue) :
    (JSValue.or a (.str "An error occurred")).truthy = true := by
  unfold JSValue.or
  split
  · assumption
  · simp [JSValue.truthy]

theorem JSValue.ne_of_truthy (v : JSValue) (h : v.truthy = true) :
    v ≠ .null ∧ v ≠ .undefined ∧ v ≠ .str "" := by
  refine ⟨?_, ?_, ?_⟩ <;> intro hv <;> subst hv <;> simp [JSValue.truthy] at h

theorem JSValue.optProp_of_nullish (v : JSValue) (key : String) (h : v.isNullish = true) :
    v.optProp key = .undefined := by
  simp [JSValue.optProp, h]

theorem JSValue.optProp_of_not_nullish (v : JSValue) (key : String) (h : v.isNullish = false) :
    v.optProp key = v.field key := by
  simp [JSValue.optProp, h]

theorem handleSubmitSettle_isLoading (c : CropDiseaseDetector) (settled : Settled) :
    (handleSubmitSettle c settled).1.isLoading = false := by
  unfold handleSubmitSettle
  split
  · rfl
  · split <;> rfl

theorem handleSubmitSettle_error_congr (c1 c2 : CropDiseaseDetector) (settled : Settled)
    (h : c1.error = c2.error) :
    (handleSubmitSettle c1 settled).1.error = (handleSubmitSettle c2 settled).1.error := by
  unfold handleSubmitSettle
  split
  · exact h
  · split
    · rfl
    · exact h

theorem handleSubmitSettle_prediction_congr (c1 c2 : CropDiseaseDetector) (settled : Settled)
    (h : c1.prediction = c2.prediction) :
    (handleSubmitSettle c1 settled).1.prediction =
      (handleSubmitSettle c2 settled).1.prediction := by
  unfold handleSubmitSettle
  split
  · rfl
  · split <;> exact h

theorem handleSubmitSettle_prediction_ok (c : CropDiseaseDetector) (settled : Settled)
    (p : Prediction) (h : readPrediction settled = .ok p) :
    (handleSubmitSettle c settled).1.prediction = some p := by
  unfold handleSubmitSettle
  rw [h]

theorem handleSubmitSettle_prediction_error (c : CropDiseaseDetector) (settled : Settled)
    (e : JSValue) (h : readPrediction settled = .error e) :
    (handleSubmitSettle c settled).1.prediction = c.prediction := by
  unfold handleSubmitSettle
  rw [h]
  dsimp only
  split <;> rfl

/-! ## The claims -/

/-- C1: with no image acquired, `handleSubmit` sends no request and ends with
the fault "Please select an image"; the selected file, the preview, the
prediction, the loading flag and the camera flag are what they were. -/
theorem handleSubmit_no_image (c : CropDiseaseDetector) (remote : Request → Settled)
    (hnone : c.selectedFile = none) :
    (handleSubmit c remote).requests = [] ∧
    (handleSubmit c remote).component.error = .str "Please select an image" ∧
    (handleSubmit c remote).component.selectedFile = c.selectedFile ∧
    (handleSubmit c remote).component.imagePreview = c.imagePreview ∧
    (handleSubmit c remote).component.prediction = c.prediction ∧
    (handleSubmit c remote).component.isLoading = c.isLoading ∧
    (handleSubmit c remote).component.isCameraMode = c.isCameraMode := by
  simp [handleSubmit, handleSubmitBegin, hnone]

theorem handleSubmit_no_image_witness :
    CropDiseaseDetector.initial.selectedFile = none ∧
    (handleSubmit CropDiseaseDetector.initial leafBlightRemote).requests = [] ∧
    (handleSubmit CropDiseaseDetector.initial leafBlightRemote).component.error =
      .str "Please select an image" :=
  ⟨rfl,
   (handleSubmit_no_image CropDiseaseDetector.initial leafBlightRemote rfl).1,
   (handleSubmit_no_image CropDiseaseDetector.initial leafBlightRemote rfl).2.1⟩

/-- C2: whatever the state held before, once the decode of a selected file has
ended the selected file is that file, the preview is the decoded result, and
both the prediction and the fault are null. -/
theorem handleFileChange_invalidates (c : CropDiseaseDetector) (file : File) (rest : List File)
    (result : Option String) :
    (handleFileChange c (file :: rest) result).selectedFile = some file ∧
    (handleFileChange c (file :: rest) result).imagePreview = result ∧
    (handleFileChange c (file :: rest) result).prediction = none ∧
    (handleFileChange c (file :: rest) result).error = .null := by
  simp [handleFileChange, handleFileChangeLoadEnd]

/-- C3: with an image acquired and a successful response whose body has the
fields `class` and `confidence`, `handleSubmit` ends with the prediction holding
exactly these two values, the fault null and the loading flag false. -/
theorem handleSubmit_success (c : CropDiseaseDetector) (f : File) (remote : Request → Settled)
    (response body : List (String × JSValue)) (cls confidence : JSValue)
    (hfile : c.selectedFile = some f)
    (hresolved : remote (predictRequest f) = .resolved (.obj response))
    (hdata : response.lookup "data" = some (.obj body))
    (hclass : body.lookup "class" = some cls)
    (hconfidence : body.lookup "confidence" = some confidence) :
    (handleSubmit c remote).component.prediction =
      some { class_ := cls, confidence := confidence } ∧
    (handleSubmit c remote).component.error = .null ∧
    (handleSubmit c remote).component.isLoading = false := by
  rw [handleSubmit_of_file c f remote hfile, hresolved]
  simp [handleSubmitSettle, readPrediction, JSValue.getProp, JSValue.isNullish, JSValue.field,
    hdata, hclass, hconfidence]

theorem handleSubmit_success_witness :
    (handleSubmit acquired leafBlightRemote).component.prediction =
      some { class_ := .str "Leaf Blight", confidence := .number 92 } ∧
    (handleSubmit acquired leafBlightRemote).component.error = .null ∧
    (handleSubmit acquired leafBlightRemote).component.isLoading = false :=
  handleSubmit_success acquired sampleFile leafBlightRemote
    [("data", .obj [("class", .str "Leaf Blight"), ("confidence", .number 92)]),
     ("status", .number 200)]
    [("class", .str "Leaf Blight"), ("confidence", .number 92)]
    (.str "Leaf Blight") (.number 92) rfl rfl rfl rfl rfl

/-- C9: when `getUserMedia` fails, with whatever error, `startCamera` ends with
the fault "Camera access denied" and the video element is left as it was, so no
stream is attached to it. -/
theorem startCamera_denied (c : CropDiseaseDetector) (err : JSValue) :
    (startCamera c (.error err)).error = .str "Camera access denied" ∧
    (startCamera c (.error err)).videoRef = c.videoRef := by
  simp [startCamera]

/-- C10: `clearFile` is idempotent; it sets the selected file and the preview to
null, resets the value of a mounted file input to the empty string, and leaves
every other cell as it was. -/
theorem clearFile_idempotent (c : CropDiseaseDetector) :
    clearFile (clearFile c) = clearFile c ∧
    (clearFile c).selectedFile = none ∧
    (clearFile c).imagePreview = none ∧
    (clearFile c).fileInputRef = c.fileInputRef.map (fun _ => { value := "" }) ∧
    (clearFile c).prediction = c.prediction ∧
    (clearFile c).error = c.error ∧
    (clearFile c).isLoading = c.isLoading ∧
    (clearFile c).isCameraMode = c.isCameraMode ∧
    (clearFile c).videoRef = c.videoRef ∧
    (clearFile c).canvasRef = c.canvasRef := by
  refine ⟨?_, rfl, rfl, ?_, rfl, rfl, rfl, rfl, rfl, rfl⟩
  · cases h : c.fileInputRef <;> simp [clearFile, h]
  · cases h : c.fileInputRef <;> simp [clearFile, h]

/-- C4, refuted as stated: a fault body whose `error` text is the empty string
does not end up in the fault cell; the generic message does. -/
theorem handleSubmit_fault_empty_text :
    acquired.selectedFile = some sampleFile ∧
    faultRemote (.str "") (predictRequest sampleFile) =
      .rejected (.obj [("message", .str "Request failed with status code 400"),
        ("response", .obj [("data", .obj [("error", .str "")]), ("status", .number 400)])]) ∧
    (handleSubmit acquired (faultRemote (.str ""))).component.error = .str "An error occurred" ∧
    (handleSubmit acquired (faultRemote (.str ""))).component.error ≠ .str "" := by
  refine ⟨rfl, rfl, rfl, ?_⟩
  intro h
  have hstr : JSValue.str "An error occurred" = JSValue.str "" := h
  exact absurd (JSValue.str.inj hstr) (by decide)

/-- C4, amended: with an image acquired and a fault response whose body carries
a non-empty error text, `handleSubmit` ends with the fault equal to that text
and the loading flag false. -/
theorem handleSubmit_fault_text (c : CropDiseaseDetector) (f : File) (remote : Request → Settled)
    (err response body : List (String × JSValue)) (e : String)
    (hfile : c.selectedFile = some f)
    (hrejected : remote (predictRequest f) = .rejected (.obj err))
    (hresponse : err.lookup "response" = some (.obj response))
    (hdata : response.lookup "data" = some (.obj body))
    (herror : body.lookup "error" = some (.str e))
    (hne : e ≠ "") :
    (handleSubmit c remote).component.error = .str e ∧
    (handleSubmit c remote).component.isLoading = false := by
  rw [handleSubmit_of_file c f remote hfile, hrejected]
  simp [handleSubmitSettle, readPrediction, catchMessage, JSValue.getProp, JSValue.optProp,
    JSValue.isNullish, JSValue.field, JSValue.or, JSValue.truthy, hresponse, hdata, herror, hne]

theorem handleSubmit_fault_text_witness :
    (handleSubmit acquired (faultRemote (.str "Unsupported image format"))).component.error =
      .str "Unsupported image format" ∧
    (handleSubmit acquired (faultRemote (.str "Unsupported image format"))).component.isLoading =
      false :=
  handleSubmit_fault_text acquired sampleFile (faultRemote (.str "Unsupported image format"))
    [("message", .str "Request failed with status code 400"),
     ("response", .obj [("data", .obj [("error", .str "Unsupported image format")]),
       ("status", .number 400)])]
    [("data", .obj [("error", .str "Unsupported image format")]), ("status", .number 400)]
    [("error", .str "Unsupported image format")]
    "Unsupported image format" rfl rfl rfl rfl rfl (by decide)

/-- C5: with an image acquired, a failure of the remote call that carries no
error message (no response, a response without a body, or a body without an
`error` field) ends with the fault "An error occurred" and the loading flag
false; and after any failure of the remote call the fault is truthy, hence
neither null nor undefined nor the empty string. -/
theorem handleSubmit_fault_fallback (c : CropDiseaseDetector) (f : File)
    (remote : Request → Settled) (err : JSValue)
    (hfile : c.selectedFile = some f)
    (hrejected : remote (predictRequest f) = .rejected err)
    (hobject : err.isNullish = false) :
    (((err.field "response").isNullish = true ∨
      ((err.field "response").field "data").isNullish = true ∨
      ((err.field "response").field "data").field "error" = .undefined) →
      (handleSubmit c remote).component.error = .str "An error occurred" ∧
      (handleSubmit c remote).component.isLoading = false) ∧
    (handleSubmit c remote).component.error.truthy = true ∧
    (handleSubmit c remote).component.error ≠ .null ∧
    (handleSubmit c remote).component.error ≠ .undefined ∧
    (handleSubmit c remote).component.error ≠ .str "" ∧
    (handleSubmit c remote).component.isLoading = false := by
  rw [handleSubmit_of_file c f remote hfile, hrejected]
  have hsettle : handleSubmitSettle { c with isLoading := true, error := .null } (.rejected err) =
      ({ c with
          error := JSValue.or (((err.field "response").optProp "data").optProp "error")
            (.str "An error occurred"),
          isLoading := false }, none) := by
    simp [handleSubmitSettle, readPrediction, catchMessage, JSValue.getProp, hobject]
  rw [hsettle]
  have htruthy := JSValue.truthy_or_fallback (((err.field "response").optProp "data").optProp "error")
  have hne := JSValue.ne_of_truthy _ htruthy
  refine ⟨?_, htruthy, hne.1, hne.2.1, hne.2.2, rfl⟩
  intro hcase
  refine ⟨?_, rfl⟩
  show JSValue.or (((err.field "response").optProp "data").optProp "error")
    (.str "An error occurred") = .str "An error occurred"
  have hundef : ((err.field "response").optProp "data").optProp "error" = .undefined := by
    rcases hcase with h | h | h
    · rw [JSValue.optProp_of_nullish _ _ h]
      rfl
    · cases h1 : (err.field "response").isNullish
      · rw [JSValue.optProp_of_not_nullish _ _ h1, JSValue.optProp_of_nullish _ _ h]
      · rw [JSValue.optProp_of_nullish _ _ h1]
        rfl
    · cases h1 : (err.field "response").isNullish
      · rw [JSValue.optProp_of_not_nullish _ _ h1]
        cases h2 : ((err.field "response").field "data").isNullish
        · rw [JSValue.optProp_of_not_nullish _ _ h2]
          exact h
        · rw [JSValue.optProp_of_nullish _ _ h2]
      · rw [JSValue.optProp_of_nullish _ _ h1]
        rfl
  rw [hundef]
  simp [JSValue.or, JSValue.truthy]

theorem handleSubmit_fault_fallback_witness :
    (handleSubmit acquired networkErrorRemote).component.error = .str "An error occurred" ∧
    (handleSubmit acquired networkErrorRemote).component.isLoading = false :=
  (handleSubmit_fault_fallback acquired sampleFile networkErrorRemote
    (.obj [("message", .str "Network Error"), ("code", .str "ERR_NETWORK")])
    rfl rfl rfl).1 (Or.inl rfl)

/-- C6: with a canvas mounted and a video element holding a stream, after
`captureImage` and its encode callback the video element still holds that
stream, with the same tracks in the same order, every one of them ended and
none live, and the camera flag is false. -/
theorem captureImage_stops_tracks (c : CropDiseaseDetector) (blob : Option Blob)
    (dataURL : String) (canvas : HTMLCanvas) (video : HTMLVideo) (stream : MediaStream)
    (hcanvas : c.canvasRef = some canvas)
    (hvideo : c.videoRef = some video)
    (hstream : video.srcObject = some stream) :
    ∃ video1 stream1,
      (captureImage c blob dataURL).component.videoRef = some video1 ∧
      video1.srcObject = some stream1 ∧
      stream1.tracks.map MediaStreamTrack.id = stream.tracks.map MediaStreamTrack.id ∧
      (∀ t ∈ stream1.tracks, t.readyState = .ended) ∧
      stream1.liveCount = 0 ∧
      (captureImage c blob dataURL).component.isCameraMode = false ∧
      (captureImage c blob dataURL).uncaught = none := by
  refine ⟨{ video with srcObject := some stream.stopAll }, stream.stopAll, ?_, rfl, ?_, ?_, ?_, ?_, ?_⟩
  · simp [captureImage, hcanvas, hvideo, hstream]
  · simp [MediaStream.stopAll, MediaStreamTrack.stop, Function.comp_def]
  · intro t ht
    simp only [MediaStream.stopAll, List.mem_map] at ht
    obtain ⟨t0, _, rfl⟩ := ht
    rfl
  · simp [MediaStream.liveCount, MediaStream.stopAll, MediaStreamTrack.stop, List.filter_map,
      Function.comp_def]
  · simp [captureImage, hcanvas, hvideo, hstream]
  · simp [captureImage, hcanvas, hvideo, hstream]

theorem captureImage_stops_tracks_witness :
    ∃ video1 stream1,
      (captureImage cameraAfterFailure none "data:,").component.videoRef = some video1 ∧
      video1.srcObject = some stream1 ∧
      stream1.tracks.map MediaStreamTrack.id = sampleStream.tracks.map MediaStreamTrack.id ∧
      (∀ t ∈ stream1.tracks, t.readyState = .ended) ∧
      stream1.liveCount = 0 ∧
      (captureImage cameraAfterFailure none "data:,").component.isCameraMode = false ∧
      (captureImage cameraAfterFailure none "data:,").uncaught = none :=
  captureImage_stops_tracks cameraAfterFailure none "data:,"
    { width := 300, height := 150 }
    { srcObject := some sampleStream, videoWidth := 640, videoHeight := 480 }
    sampleStream rfl rfl rfl

/-- Whatever the state, `captureImage` writes neither the prediction nor the
fault: both are what they were before the capture. -/
theorem captureImage_prediction_error (c : CropDiseaseDetector) (blob : Option Blob)
    (dataURL : String) :
    (captureImage c blob dataURL).component.prediction = c.prediction ∧
    (captureImage c blob dataURL).component.error = c.error := by
  unfold captureImage
  split
  · split <;> exact ⟨rfl, rfl⟩
  · exact ⟨rfl, rfl⟩

/-- C7, the code at the failing input: capturing a frame while the component
still holds the prediction and the fault of an earlier attempt stores the
captured file and leaves both the prediction and the fault in place. -/
theorem captureImage_keeps_stale_result :
    cameraAfterFailure.prediction =
      some { class_ := .str "Leaf Blight", confidence := .number 92 } ∧
    cameraAfterFailure.error = .str "An error occurred" ∧
    (captureImage cameraAfterFailure (some { bytes := [137, 80, 78, 71], type := "image/png" })
      "data:image/png;base64,iVBORw==").component.selectedFile =
      some { bytes := [137, 80, 78, 71], name := "captured-image.jpg", type := "image/jpeg" } ∧
    (captureImage cameraAfterFailure (some { bytes := [137, 80, 78, 71], type := "image/png" })
      "data:image/png;base64,iVBORw==").component.prediction =
      some { class_ := .str "Leaf Blight", confidence := .number 92 } ∧
    (captureImage cameraAfterFailure (some { bytes := [137, 80, 78, 71], type := "image/png" })
      "data:image/png;base64,iVBORw==").component.error = .str "An error occurred" ∧
    (captureImage cameraAfterFailure (some { bytes := [137, 80, 78, 71], type := "image/png" })
      "data:image/png;base64,iVBORw==").component.error ≠ .null :=
  ⟨rfl, rfl, rfl, rfl, rfl, fun h => JSValue.noConfusion h⟩

/-- C8, refuted as stated: a Failed state that still shows the prediction of an
earlier success keeps that prediction when the retry fails, whereas the same
failure met by a first submission from the Idle state leaves no prediction. -/
theorem retry_keeps_stale_prediction :
    failedAfterSuccess.error ≠ .null ∧
    failedAfterSuccess.isLoading = false ∧
    failedAfterSuccess.selectedFile = some sampleFile ∧
    acquired.selectedFile = some sampleFile ∧
    acquired.prediction = none ∧
    acquired.error = .null ∧
    acquired.isLoading = false ∧
    (handleSubmit failedAfterSuccess networkErrorRemote).component.prediction =
      some { class_ := .str "Leaf Blight", confidence := .number 92 } ∧
    (handleSubmit acquired networkErrorRemote).component.prediction = none ∧
    (handleSubmit failedAfterSuccess networkErrorRemote).component.prediction ≠
      (handleSubmit acquired networkErrorRemote).component.prediction :=
  ⟨fun h => JSValue.noConfusion h, rfl, rfl, rfl, rfl, rfl, rfl, rfl, rfl,
    fun h => Option.noConfusion h⟩

/-- C8, amended: in every state with an image still acquired, the Failed phase
included, `handleSubmit` sends exactly one POST whose form data is the single
field `file` holding that image; its final fault and loading flag are those of
a first submission from the Idle state with the same image; its final
prediction does not depend on the earlier fault: it is the prediction read from
the response when the remote call yields one, and otherwise the prediction the
state already held, so it equals that of the first submission from Idle
whenever the state held no prediction or the remote call yields one. -/
theorem handleSubmit_retry (c : CropDiseaseDetector) (f : File) (remote : Request → Settled)
    (hfile : c.selectedFile = some f) :
    (handleSubmit c remote).requests = [predictRequest f] ∧
    (predictRequest f).method = "POST" ∧
    (predictRequest f).data = [("file", f)] ∧
    (handleSubmit c remote).component.error = (handleSubmit c.toIdle remote).component.error ∧
    (handleSubmit c remote).component.isLoading =
      (handleSubmit c.toIdle remote).component.isLoading ∧
    (handleSubmit c remote).component.isLoading = false ∧
    (handleSubmit c remote).component.prediction =
      (handleSubmit { c with error := .null } remote).component.prediction ∧
    (∀ p, readPrediction (remote (predictRequest f)) = .ok p →
      (handleSubmit c remote).component.prediction = some p ∧
      (handleSubmit c.toIdle remote).component.prediction = some p) ∧
    (∀ e, readPrediction (remote (predictRequest f)) = .error e →
      (handleSubmit c remote).component.prediction = c.prediction ∧
      (handleSubmit c.toIdle remote).component.prediction = none) ∧
    (c.prediction = none ∨ (∃ p, readPrediction (remote (predictRequest f)) = .ok p) →
      (handleSubmit c remote).component.prediction =
        (handleSubmit c.toIdle remote).component.prediction) := by
  have hidleFile : c.toIdle.selectedFile = some f := hfile
  have hclearFile : ({ c with error := .null } : CropDiseaseDetector).selectedFile = some f := hfile
  rw [handleSubmit_of_file c f remote hfile, handleSubmit_of_file c.toIdle f remote hidleFile,
    handleSubmit_of_file _ f remote hclearFile]
  refine ⟨rfl, rfl, rfl, ?_, ?_, ?_, ?_, ?_, ?_, ?_⟩
  · exact handleSubmitSettle_error_congr _ _ _ rfl
  · rw [handleSubmitSettle_isLoading, handleSubmitSettle_isLoading]
  · exact handleSubmitSettle_isLoading _ _
  · exact handleSubmitSettle_prediction_congr _ _ _ rfl
  · intro p hp
    exact ⟨handleSubmitSettle_prediction_ok _ _ p hp, handleSubmitSettle_prediction_ok _ _ p hp⟩
  · intro e he
    exact ⟨handleSubmitSettle_prediction_error _ _ e he,
      handleSubmitSettle_prediction_error _ _ e he⟩
  · intro h
    rcases h with h | ⟨p, hp⟩
    · exact handleSubmitSettle_prediction_congr _ _ _ h
    · rw [handleSubmitSettle_prediction_ok _ _ p hp, handleSubmitSettle_prediction_ok _ _ p hp]

theorem handleSubmit_retry_witness :
    failedAfterSuccess.error ≠ .null ∧
    failedAfterSuccess.isLoading = false ∧
    failedAfterSuccess.selectedFile = some sampleFile ∧
    failedAfterSuccess.prediction =
      some { class_ := .str "Leaf Blight", confidence := .number 92 } ∧
    (handleSubmit failedAfterSuccess networkErrorRemote).requests =
      [predictRequest sampleFile] ∧
    (handleSubmit failedAfterSuccess networkErrorRemote).component.error =
      (handleSubmit failedAfterSuccess.toIdle networkErrorRemote).component.error ∧
    (handleSubmit failedAfterSuccess networkErrorRemote).component.prediction =
      failedAfterSuccess.prediction ∧
    (handleSubmit failedAfterSuccess.toIdle networkErrorRemote).component.prediction = none ∧
    (handleSubmit failedFirst leafBlightRemote).component.prediction =
      some { class_ := .str "Leaf Blight", confidence := .number 92 } ∧
    (handleSubmit failedFirst leafBlightRemote).component.prediction =
      (handleSubmit failedFirst.toIdle leafBlightRemote).component.prediction :=
  ⟨fun h => JSValue.noConfusion h, rfl, rfl, rfl,
   (handleSubmit_retry failedAfterSuccess sampleFile networkErrorRemote rfl).1,
   (handleSubmit_retry failedAfterSuccess sampleFile networkErrorRemote rfl).2.2.2.1,
   ((handleSubmit_retry failedAfterSuccess sampleFile networkErrorRemote rfl).2.2.2.2.2.2.2.2.1
      (.obj [("message", .str "Network Error"), ("code", .str "ERR_NETWORK")]) rfl).1,
   ((handleSubmit_retry failedAfterSuccess sampleFile networkErrorRemote rfl).2.2.2.2.2.2.2.2.1
      (.obj [("message", .str "Network Error"), ("code", .str "ERR_NETWORK")]) rfl).2,
   ((handleSubmit_retry failedFirst sampleFile leafBlightRemote rfl).2.2.2.2.2.2.2.1
      { class_ := .str "Leaf Blight", confidence := .number 92 } rfl).1,
   (handleSubmit_retry failedFirst sampleFile leafBlightRemote rfl).2.2.2.2.2.2.2.2.2
      (Or.inr ⟨{ class_ := .str "Leaf Blight", confidence := .number 92 }, rfl⟩)⟩

end PlantDisease
